import Mathlib

/-!
# Verification of the roster reconciler `addOrUpdatePersonInPeopleSheet`

A shallow embedding of the function `addOrUpdatePersonInPeopleSheet`
(src/GenerateCueSheet.js, lines 747-838) of the In-Depth-Event-Planner
repository, together with proofs about its behaviour.

The tabular store is modelled as an optional `Sheet` (the "People" sheet):
a header row (`headers`) and the data rows below it (`rows`), all cells
holding strings; a cell read outside the stored width yields `""`, exactly
as an empty spreadsheet cell reads as the empty string.  The incoming
form payload is a `Contact`.  `Logger.log` output is returned as a list of
strings alongside the new spreadsheet state.

JavaScript details mirrored here:
* `headers.findIndex(h => h === name)` and the row-scan `for` loop with
  `break` are both first-index searches: `findIdx0`.
* The JS code stores 1-based column indices (`findIndex + 1`) and treats
  `0` (not found) as falsy; the embedding keeps the 0-based index as an
  `Option Nat`, which is the same information.
* `data.name || ''` is the identity on strings (`''` is the only falsy
  string), so the contact fields are used directly.
* In the update branch with no "Assigned Tasks" column the source executes
  `rowData[-1] = ''`, which in JavaScript creates a stray property and
  leaves every array index and the array length untouched; it is a no-op
  on the written values and is not represented.
* `setValues` on a 1-row range overwrites exactly `rowData.length` cells
  of the target row and leaves any cell to the right untouched
  (`writeRow`); appending writes at `getLastRow() + 1`, i.e. after the
  last data row.
-/

namespace EventPlanner

/-- The normalized payload mapped onto the People sheet
(`data` in the source).  All fields are plain strings. -/
structure Contact where
  name : String
  category : String
  role : String
  status : String
  email : String
  phone : String
  deriving DecidableEq, Repr

/-- The People sheet: header row plus data rows, all string cells. -/
structure Sheet where
  headers : List String
  rows : List (List String)
  deriving DecidableEq, Repr

/-- The spreadsheet: the People sheet may be absent
(`ss.getSheetByName('People')` returning `null`). -/
structure Spreadsheet where
  people : Option Sheet
  deriving DecidableEq, Repr

/-- Index of the first element satisfying `p`, or `none`.
Embeds both `Array.prototype.findIndex` and the source's row-scan
`for` loop with `break`. -/
def findIdx0 (p : α → Bool) : List α → Option Nat
  | [] => none
  | a :: l => if p a then some 0 else (findIdx0 p l).map (· + 1)

/-- `headers.findIndex(header => header === name)` (0-based; the source
keeps `findIndex + 1` and tests it for `0`, which carries the same
information as this `Option`). -/
def colIdx (headers : List String) (name : String) : Option Nat :=
  findIdx0 (fun h => h == name) headers

/-- Reading one cell of a row; a cell beyond the stored width is empty,
and an empty spreadsheet cell reads as `""`. -/
def cell (row : List String) (j : Nat) : String :=
  row.getD j ""

/-- The `rowData` array after the fill loop: a sparse array with the
known fields written at their resolved column indices, every remaining
slot filled with `""`.  `assigned` is the value stored at the
"Assigned Tasks" column when that column exists (the preserved current
value in the update branch, `""` in the insert branch); its slot is the
last one assigned in the source, hence tested first here. -/
def mkRowData (headers : List String) (data : Contact) (assigned : String) :
    List String :=
  (List.range headers.length).map fun j =>
    if colIdx headers "Assigned Tasks" = some j then assigned
    else if colIdx headers "Name" = some j then data.name
    else if colIdx headers "Category" = some j then data.category
    else if colIdx headers "Role/Position" = some j then data.role
    else if colIdx headers "Status" = some j then data.status
    else if colIdx headers "Email" = some j then data.email
    else if colIdx headers "Phone" = some j then data.phone
    else ""

/-- `setValues([newVals])` on a range starting at column 1 of an existing
row: the first `newVals.length` cells are replaced, cells to the right
are untouched. -/
def writeRow (old newVals : List String) : List String :=
  newVals ++ old.drop newVals.length

/-- The update branch's read-before-write of the matched row's
"Assigned Tasks" cell (source lines 800-806): read the current value
when the column exists; when it does not, the branch stores `''` at
array index `-1`, which contributes nothing to the written row. -/
def currentAssignedTasks (headers row : List String) : String :=
  match colIdx headers "Assigned Tasks" with
  | some a => cell row a
  | none => ""

/-- The body of `addOrUpdatePersonInPeopleSheet` once the People sheet
has been found and the required columns resolved (`eIdx` is the 0-based
Email column).  Scans the data rows for the first one whose Email cell
equals `data.email` (`===`); updates it preserving its current
"Assigned Tasks" cell, or appends a fresh row after the last data row.
Returns the new sheet and the `Logger.log` output. -/
def reconcile (data : Contact) (sheet : Sheet) (eIdx : Nat) :
    Sheet × List String :=
  let headers := sheet.headers
  let rows := sheet.rows
  match findIdx0 (fun r => cell r eIdx == data.email) rows with
  | some j =>
      let rowData :=
        mkRowData headers data (currentAssignedTasks headers (rows.getD j []))
      ({ headers := headers,
         rows := rows.set j (writeRow (rows.getD j []) rowData) },
       ["Updated existing person: " ++ data.name ++ " (" ++ data.email ++
        ") at row " ++ toString (j + 2)])
  | none =>
      let rowData := mkRowData headers data ""
      ({ headers := headers, rows := rows ++ [rowData] },
       ["Added new person: " ++ data.name ++ " (" ++ data.email ++
        ") to row " ++ toString (rows.length + 2)])

/-- `addOrUpdatePersonInPeopleSheet(data)` (src/GenerateCueSheet.js:747).
Aborts with a log entry when the People sheet is missing or when any of
the required columns Name, Category, Email is absent from the header
row; otherwise runs `reconcile`. -/
def addOrUpdatePersonInPeopleSheet (data : Contact) (ss : Spreadsheet) :
    Spreadsheet × List String :=
  match ss.people with
  | none => (ss, ["People sheet not found"])
  | some sheet =>
      match colIdx sheet.headers "Name", colIdx sheet.headers "Category",
            colIdx sheet.headers "Email" with
      | some _, some _, some eIdx =>
          let r := reconcile data sheet eIdx
          ({ people := some r.1 }, r.2)
      | _, _, _ => (ss, ["Required columns not found in People sheet"])

/-- The spreadsheet state after one call (the store side effect alone). -/
def applyContact (data : Contact) (ss : Spreadsheet) : Spreadsheet :=
  (addOrUpdatePersonInPeopleSheet data ss).1

/-- The log produced by one call. -/
def applyLog (data : Contact) (ss : Spreadsheet) : List String :=
  (addOrUpdatePersonInPeopleSheet data ss).2

/-- "At most one record per identity key": the Email cells of the data
rows are pairwise distinct (stated for the sheet's resolved Email
column; trivial when there is no Email column). -/
def atMostOnePerEmail (sheet : Sheet) : Prop :=
  ∀ eIdx, colIdx sheet.headers "Email" = some eIdx →
    (sheet.rows.map fun r => cell r eIdx).Nodup

/-- `atMostOnePerEmail` lifted to the spreadsheet. -/
def storeInvariant (ss : Spreadsheet) : Prop :=
  ∀ sheet, ss.people = some sheet → atMostOnePerEmail sheet

/-- Number of data rows whose cell in column `eIdx` equals `email`. -/
def recordCount (rows : List (List String)) (eIdx : Nat) (email : String) :
    Nat :=
  (rows.map fun r => cell r eIdx).count email

/-- The data rows of the People sheet (empty when the sheet is absent). -/
def peopleRows (ss : Spreadsheet) : List (List String) :=
  match ss.people with
  | some sheet => sheet.rows
  | none => []

/-! ### Concrete stores and contacts used by witnesses and counterexamples -/

/-- The full header row of the repository's People sheet. -/
def fullHeaders : List String :=
  ["Name", "Category", "Role/Position", "Status", "Email", "Phone",
   "Assigned Tasks"]

/-- The spec's end-to-end roster: one record for Ana with
Assigned Tasks "Signage". -/
def anaSheet : Sheet :=
  { headers := fullHeaders,
    rows := [["Ana", "Volunteer", "", "", "ana@x.com", "", "Signage"]] }

def anaStore : Spreadsheet := { people := some anaSheet }

/-- The spec's end-to-end incoming contact. -/
def anaLee : Contact :=
  { name := "Ana Lee", category := "Volunteer", role := "Lead",
    status := "Accepted", email := "ana@x.com", phone := "" }

/-- A roster whose schema carries an extra column "Notes" that the
operation does not know about, holding a non-empty value. -/
def notesSheet : Sheet :=
  { headers := ["Name", "Category", "Email", "Notes"],
    rows := [["Ana", "Volunteer", "ana@x.com", "important note"]] }

def notesStore : Spreadsheet := { people := some notesSheet }

/-- An incoming contact with an empty email. -/
def blankContact : Contact :=
  { name := "B", category := "Volunteer", role := "", status := "",
    email := "", phone := "" }

/-- A valid roster with no data rows yet. -/
def emptySheet : Sheet :=
  { headers := ["Name", "Category", "Email"], rows := [] }

def emptyStore : Spreadsheet := { people := some emptySheet }

/-- A roster already holding two records with the same email. -/
def dupSheet : Sheet :=
  { headers := ["Name", "Category", "Email"],
    rows := [["A", "V", "a@x.com"], ["B", "V", "a@x.com"]] }

def dupStore : Spreadsheet := { people := some dupSheet }

/-- A contact whose email collides with both rows of `dupSheet`. -/
def dupContact : Contact :=
  { name := "Z", category := "V", role := "", status := "",
    email := "a@x.com", phone := "" }

/-- Lower-case-email contact for the case-sensitivity scenario. -/
def lowerCaseContact : Contact :=
  { name := "Lo", category := "V", role := "", status := "",
    email := "a@x.com", phone := "" }

/-- Upper-case-email contact for the case-sensitivity scenario. -/
def upperCaseContact : Contact :=
  { name := "Up", category := "V", role := "", status := "",
    email := "A@X.com", phone := "" }

/-- A roster whose header lacks the required "Email" column. -/
def noEmailSheet : Sheet :=
  { headers := ["Name", "Category", "Phone"],
    rows := [["A", "V", "123"]] }

def noEmailStore : Spreadsheet := { people := some noEmailSheet }

/-- A spreadsheet without a People sheet. -/
def noPeopleStore : Spreadsheet := { people := none }

/-- A contact carrying values for the optional columns. -/
def richContact : Contact :=
  { name := "R", category := "Speaker", role := "Keynote",
    status := "Accepted", email := "r@x.com", phone := "555" }

/-- Like `richContact` but with different values in the optional
role/status/phone fields only. -/
def richContactAlt : Contact :=
  { name := "R", category := "Speaker", role := "OTHER-ROLE",
    status := "OTHER-STATUS", email := "r@x.com", phone := "999" }

/-! ### Lemmas about the first-index search -/

theorem findIdx0_nil (p : α → Bool) : findIdx0 p [] = none := rfl

theorem findIdx0_cons (p : α → Bool) (a : α) (l : List α) :
    findIdx0 p (a :: l) =
      if p a then some 0 else (findIdx0 p l).map (· + 1) := rfl

theorem findIdx0_eq_none_iff (p : α → Bool) (l : List α) :
    findIdx0 p l = none ↔ ∀ x ∈ l, p x = false := by
  induction l with
  | nil => simp [findIdx0]
  | cons a l ih =>
      by_cases h : p a
      · simp [findIdx0, h]
      · simp only [findIdx0, h, if_neg, Bool.false_eq_true, ite_false,
          Option.map_eq_none', ih, List.forall_mem_cons]
        constructor
        · intro hall
          exact ⟨by simp_all, hall⟩
        · intro hall
          exact hall.2

theorem findIdx0_eq_some_iff (p : α → Bool) (d : α) :
    ∀ (l : List α) (j : Nat),
      findIdx0 p l = some j ↔
        j < l.length ∧ p (l.getD j d) = true ∧
          ∀ i, i < j → p (l.getD i d) = false := by
  intro l
  induction l with
  | nil => intro j; simp [findIdx0]
  | cons a l ih =>
      intro j
      by_cases h : p a
      · simp only [findIdx0, h, if_pos, Option.some.injEq]
        constructor
        · rintro rfl
          exact ⟨Nat.succ_pos _, by simpa using h, fun i hi => absurd hi (Nat.not_lt_zero i)⟩
        · rintro ⟨-, -, hall⟩
          cases j with
          | zero => rfl
          | succ k =>
              have := hall 0 (Nat.succ_pos k)
              simp only [List.getD_cons_zero] at this
              rw [h] at this
              cases this
      · simp only [findIdx0, h, Bool.false_eq_true, if_neg, ite_false]
        cases j with
        | zero =>
            simp only [Option.map_eq_some']
            constructor
            · rintro ⟨k, -, hk⟩
              cases hk
            · rintro ⟨-, hp, -⟩
              simp only [List.getD_cons_zero] at hp
              exact absurd hp h
        | succ k =>
            simp only [Option.map_eq_some']
            constructor
            · rintro ⟨k', hk', heq⟩
              rw [Nat.succ_injective heq] at hk'
              obtain ⟨hlt, hp, hall⟩ := (ih k).mp hk'
              refine ⟨Nat.succ_lt_succ hlt, by simpa using hp, ?_⟩
              intro i hi
              cases i with
              | zero => simpa using Bool.eq_false_iff.mpr h
              | succ i' =>
                  simp only [List.getD_cons_succ]
                  exact hall i' (Nat.lt_of_succ_lt_succ hi)
            · rintro ⟨hlt, hp, hall⟩
              refine ⟨k, (ih k).mpr ⟨Nat.lt_of_succ_lt_succ hlt, by simpa using hp, ?_⟩, rfl⟩
              intro i hi
              have := hall (i + 1) (Nat.succ_lt_succ hi)
              simpa using this

theorem findIdx0_eq_some_lt {p : α → Bool} {l : List α} {j : Nat}
    (h : findIdx0 p l = some j) : j < l.length := by
  classical
  rcases l with - | ⟨a, l⟩
  · cases h
  · exact ((findIdx0_eq_some_iff p a (a :: l) j).mp h).1

theorem findIdx0_eq_some_getD {p : α → Bool} {l : List α} {j : Nat} (d : α)
    (h : findIdx0 p l = some j) : p (l.getD j d) = true :=
  ((findIdx0_eq_some_iff p d l j).mp h).2.1

theorem findIdx0_eq_some_earlier {p : α → Bool} {l : List α} {j : Nat} (d : α)
    (h : findIdx0 p l = some j) : ∀ i, i < j → p (l.getD i d) = false :=
  ((findIdx0_eq_some_iff p d l j).mp h).2.2

/-! ### Lemmas about column resolution -/

theorem colIdx_lt {headers : List String} {name : String} {k : Nat}
    (h : colIdx headers name = some k) : k < headers.length :=
  findIdx0_eq_some_lt h

theorem colIdx_getD {headers : List String} {name : String} {k : Nat}
    (h : colIdx headers name = some k) : headers.getD k "" = name := by
  have := findIdx0_eq_some_getD "" h
  simpa using this

theorem colIdx_inj {headers : List String} {s t : String} {k : Nat}
    (hs : colIdx headers s = some k) (ht : colIdx headers t = some k) :
    s = t := by
  rw [← colIdx_getD hs, colIdx_getD ht]

theorem colIdx_ne_of {headers : List String} {s t : String} {k : Nat}
    (hs : colIdx headers s = some k) (hst : s ≠ t) :
    ¬colIdx headers t = some k :=
  fun ht => hst (colIdx_inj hs ht)

/-! ### Lemmas about the formatted row -/

theorem length_mkRowData (headers : List String) (data : Contact)
    (assigned : String) :
    (mkRowData headers data assigned).length = headers.length := by
  simp [mkRowData]

theorem getD_map_range (f : Nat → β) {n j : Nat} (d : β) (hj : j < n) :
    (((List.range n).map f).getD j d) = f j := by
  rw [List.getD_eq_getElem _ _ (by simpa using hj)]
  simp

theorem mkRowData_getD (headers : List String) (data : Contact)
    (assigned : String) {j : Nat} (hj : j < headers.length) :
    (mkRowData headers data assigned).getD j "" =
      if colIdx headers "Assigned Tasks" = some j then assigned
      else if colIdx headers "Name" = some j then data.name
      else if colIdx headers "Category" = some j then data.category
      else if colIdx headers "Role/Position" = some j then data.role
      else if colIdx headers "Status" = some j then data.status
      else if colIdx headers "Email" = some j then data.email
      else if colIdx headers "Phone" = some j then data.phone
      else "" := by
  unfold mkRowData
  exact getD_map_range _ _ hj

theorem mkRowData_assigned {headers : List String} (data : Contact)
    (assigned : String) {j : Nat}
    (h : colIdx headers "Assigned Tasks" = some j) :
    (mkRowData headers data assigned).getD j "" = assigned := by
  rw [mkRowData_getD headers data assigned (colIdx_lt h), if_pos h]

theorem mkRowData_name {headers : List String} (data : Contact)
    (assigned : String) {j : Nat} (h : colIdx headers "Name" = some j) :
    (mkRowData headers data assigned).getD j "" = data.name := by
  rw [mkRowData_getD headers data assigned (colIdx_lt h),
    if_neg (colIdx_ne_of h (by decide)), if_pos h]

theorem mkRowData_category {headers : List String} (data : Contact)
    (assigned : String) {j : Nat} (h : colIdx headers "Category" = some j) :
    (mkRowData headers data assigned).getD j "" = data.category := by
  rw [mkRowData_getD headers data assigned (colIdx_lt h),
    if_neg (colIdx_ne_of h (by decide)), if_neg (colIdx_ne_of h (by decide)),
    if_pos h]

theorem mkRowData_role {headers : List String} (data : Contact)
    (assigned : String) {j : Nat}
    (h : colIdx headers "Role/Position" = some j) :
    (mkRowData headers data assigned).getD j "" = data.role := by
  rw [mkRowData_getD headers data assigned (colIdx_lt h),
    if_neg (colIdx_ne_of h (by decide)), if_neg (colIdx_ne_of h (by decide)),
    if_neg (colIdx_ne_of h (by decide)), if_pos h]

theorem mkRowData_status {headers : List String} (data : Contact)
    (assigned : String) {j : Nat} (h : colIdx headers "Status" = some j) :
    (mkRowData headers data assigned).getD j "" = data.status := by
  rw [mkRowData_getD headers data assigned (colIdx_lt h),
    if_neg (colIdx_ne_of h (by decide)), if_neg (colIdx_ne_of h (by decide)),
    if_neg (colIdx_ne_of h (by decide)), if_neg (colIdx_ne_of h (by decide)),
    if_pos h]

theorem mkRowData_email {headers : List String} (data : Contact)
    (assigned : String) {j : Nat} (h : colIdx headers "Email" = some j) :
    (mkRowData headers data assigned).getD j "" = data.email := by
  rw [mkRowData_getD headers data assigned (colIdx_lt h),
    if_neg (colIdx_ne_of h (by decide)), if_neg (colIdx_ne_of h (by decide)),
    if_neg (colIdx_ne_of h (by decide)), if_neg (colIdx_ne_of h (by decide)),
    if_neg (colIdx_ne_of h (by decide)), if_pos h]

theorem mkRowData_phone {headers : List String} (data : Contact)
    (assigned : String) {j : Nat} (h : colIdx headers "Phone" = some j) :
    (mkRowData headers data assigned).getD j "" = data.phone := by
  rw [mkRowData_getD headers data assigned (colIdx_lt h),
    if_neg (colIdx_ne_of h (by decide)), if_neg (colIdx_ne_of h (by decide)),
    if_neg (colIdx_ne_of h (by decide)), if_neg (colIdx_ne_of h (by decide)),
    if_neg (colIdx_ne_of h (by decide)), if_neg (colIdx_ne_of h (by decide)),
    if_pos h]

theorem mkRowData_unknown {headers : List String} (data : Contact)
    (assigned : String) {j : Nat} (hj : j < headers.length)
    (h1 : colIdx headers "Assigned Tasks" ≠ some j)
    (h2 : colIdx headers "Name" ≠ some j)
    (h3 : colIdx headers "Category" ≠ some j)
    (h4 : colIdx headers "Role/Position" ≠ some j)
    (h5 : colIdx headers "Status" ≠ some j)
    (h6 : colIdx headers "Email" ≠ some j)
    (h7 : colIdx headers "Phone" ≠ some j) :
    (mkRowData headers data assigned).getD j "" = "" := by
  rw [mkRowData_getD headers data assigned hj, if_neg h1, if_neg h2,
    if_neg h3, if_neg h4, if_neg h5, if_neg h6, if_neg h7]

/-! ### Lemmas about the single-row write -/

theorem writeRow_getD_lt {old newVals : List String} {j : Nat}
    (h : j < newVals.length) (d : String) :
    (writeRow old newVals).getD j d = newVals.getD j d :=
  List.getD_append _ _ _ _ h

theorem writeRow_writeRow (old newVals : List String) :
    writeRow (writeRow old newVals) newVals = writeRow old newVals := by
  unfold writeRow
  rw [List.drop_left]

theorem set_append_length (l : List α) (a b : α) :
    (l ++ [a]).set l.length b = l ++ [b] := by
  induction l with
  | nil => rfl
  | cons x l ih => simp [List.set, ih]

/-! ### Branch characterizations of the reconciler -/

theorem reconcile_fst_update {data : Contact} {sheet : Sheet} {eIdx j : Nat}
    (hj : findIdx0 (fun r => cell r eIdx == data.email) sheet.rows = some j) :
    (reconcile data sheet eIdx).1 =
      { headers := sheet.headers,
        rows := sheet.rows.set j (writeRow (sheet.rows.getD j [])
          (mkRowData sheet.headers data
            (currentAssignedTasks sheet.headers (sheet.rows.getD j [])))) } := by
  unfold reconcile
  simp only [hj]

theorem reconcile_fst_insert {data : Contact} {sheet : Sheet} {eIdx : Nat}
    (hn : findIdx0 (fun r => cell r eIdx == data.email) sheet.rows = none) :
    (reconcile data sheet eIdx).1 =
      { headers := sheet.headers,
        rows := sheet.rows ++ [mkRowData sheet.headers data ""] } := by
  unfold reconcile
  simp only [hn]

theorem addOrUpdate_noSheet {data : Contact} {ss : Spreadsheet}
    (hp : ss.people = none) :
    addOrUpdatePersonInPeopleSheet data ss =
      (ss, ["People sheet not found"]) := by
  unfold addOrUpdatePersonInPeopleSheet
  rw [hp]

theorem addOrUpdate_missing {data : Contact} {ss : Spreadsheet}
    {sheet : Sheet} (hp : ss.people = some sheet)
    (h : colIdx sheet.headers "Name" = none ∨
         colIdx sheet.headers "Category" = none ∨
         colIdx sheet.headers "Email" = none) :
    addOrUpdatePersonInPeopleSheet data ss =
      (ss, ["Required columns not found in People sheet"]) := by
  unfold addOrUpdatePersonInPeopleSheet
  rw [hp]
  rcases hN : colIdx sheet.headers "Name" with - | n <;>
    rcases hC : colIdx sheet.headers "Category" with - | c <;>
      rcases hE : colIdx sheet.headers "Email" with - | e <;>
        simp_all

theorem addOrUpdate_valid {data : Contact} {ss : Spreadsheet} {sheet : Sheet}
    {nIdx cIdx eIdx : Nat} (hp : ss.people = some sheet)
    (hN : colIdx sheet.headers "Name" = some nIdx)
    (hC : colIdx sheet.headers "Category" = some cIdx)
    (hE : colIdx sheet.headers "Email" = some eIdx) :
    addOrUpdatePersonInPeopleSheet data ss =
      ({ people := some (reconcile data sheet eIdx).1 },
       (reconcile data sheet eIdx).2) := by
  unfold addOrUpdatePersonInPeopleSheet
  rw [hp]
  simp only [hN, hC, hE]

/-! ### Generic list facts -/

theorem getD_set_self (l : List α) {j : Nat} (x d : α) (hj : j < l.length) :
    (l.set j x).getD j d = x := by
  rw [List.getD_eq_getElem?_getD, List.getElem?_set_self hj]
  rfl

theorem getD_set_ne (l : List α) {i j : Nat} (x d : α) (h : i ≠ j) :
    (l.set i x).getD j d = l.getD j d := by
  rw [List.getD_eq_getElem?_getD, List.getElem?_set_ne h,
    ← List.getD_eq_getElem?_getD]

theorem set_getElem_self (l : List α) {j : Nat} (hj : j < l.length) :
    l.set j l[j] = l := by
  induction l generalizing j with
  | nil => simp at hj
  | cons a l ih =>
      cases j with
      | zero => rfl
      | succ k =>
          have hk : k < l.length := Nat.lt_of_succ_lt_succ (by simpa using hj)
          simp only [List.set, List.getElem_cons_succ]
          rw [ih hk]

theorem set_getD_self (l : List α) {j : Nat} (d : α) (hj : j < l.length) :
    l.set j (l.getD j d) = l := by
  rw [List.getD_eq_getElem l d hj]
  exact set_getElem_self l hj

theorem getD_append_length (l : List α) (x d : α) :
    (l ++ [x]).getD l.length d = x := by
  induction l with
  | nil => rfl
  | cons a l ih =>
      rw [List.cons_append, List.length_cons, List.getD_cons_succ]
      exact ih

/-! ### Stability of the row scan under the row write -/

theorem findIdx0_set {p : α → Bool} {l : List α} {j : Nat} {x : α}
    (hj : findIdx0 p l = some j) (hx : p x = true) :
    findIdx0 p (l.set j x) = some j := by
  have hlt := findIdx0_eq_some_lt hj
  rw [findIdx0_eq_some_iff p x]
  refine ⟨by rw [List.length_set]; exact hlt, ?_, ?_⟩
  · rw [getD_set_self l x x hlt]
    exact hx
  · intro i hi
    rw [getD_set_ne l x x (Nat.ne_of_lt hi).symm]
    exact findIdx0_eq_some_earlier x hj i hi

theorem findIdx0_append_singleton {p : α → Bool} {l : List α} {x : α}
    (hn : findIdx0 p l = none) (hx : p x = true) :
    findIdx0 p (l ++ [x]) = some l.length := by
  induction l with
  | nil => simp [findIdx0, hx]
  | cons a l ih =>
      rw [findIdx0_cons] at hn
      by_cases h : p a
      · rw [if_pos h] at hn
        cases hn
      · rw [if_neg h, Option.map_eq_none'] at hn
        have := ih hn
        simp [findIdx0, h, this]

/-! ### The preserved Assigned Tasks value across rewrites -/

theorem cell_writeRow_mkRowData {headers : List String} (old : List String)
    (data : Contact) (assigned : String) {j : Nat} (hj : j < headers.length) :
    cell (writeRow old (mkRowData headers data assigned)) j =
      (mkRowData headers data assigned).getD j "" := by
  unfold cell
  exact writeRow_getD_lt (by rw [length_mkRowData]; exact hj) ""

theorem currentAssignedTasks_writeRow (headers old : List String)
    (data : Contact) (assigned : String) :
    currentAssignedTasks headers (writeRow old (mkRowData headers data assigned)) =
      currentAssignedTasks headers (mkRowData headers data assigned) := by
  unfold currentAssignedTasks
  cases hA : colIdx headers "Assigned Tasks" with
  | none => rfl
  | some a =>
      show cell (writeRow old (mkRowData headers data assigned)) a =
        cell (mkRowData headers data assigned) a
      rw [cell_writeRow_mkRowData old data assigned (colIdx_lt hA)]
      rfl

theorem currentAssignedTasks_mkRowData (headers : List String)
    (data : Contact) (assigned : String) :
    currentAssignedTasks headers (mkRowData headers data assigned) =
      match colIdx headers "Assigned Tasks" with
      | some _ => assigned
      | none => "" := by
  unfold currentAssignedTasks
  cases hA : colIdx headers "Assigned Tasks" with
  | none => rfl
  | some a =>
      show cell (mkRowData headers data assigned) a = assigned
      exact mkRowData_assigned data assigned hA

theorem currentAssignedTasks_stable (headers old : List String)
    (data : Contact) :
    currentAssignedTasks headers
      (writeRow old (mkRowData headers data (currentAssignedTasks headers old))) =
      currentAssignedTasks headers old := by
  rw [currentAssignedTasks_writeRow, currentAssignedTasks_mkRowData]
  cases hA : colIdx headers "Assigned Tasks" with
  | none =>
      unfold currentAssignedTasks
      rw [hA]
  | some a => rfl

theorem currentAssignedTasks_fresh (headers : List String) (data : Contact) :
    currentAssignedTasks headers (mkRowData headers data "") = "" := by
  rw [currentAssignedTasks_mkRowData]
  cases colIdx headers "Assigned Tasks" <;> rfl

theorem writeRow_self (l : List String) : writeRow l l = l := by
  unfold writeRow
  rw [List.drop_length, List.append_nil]

/-! ### The two write paths as transformations of the whole store -/

theorem applyContact_abort {data : Contact} {ss : Spreadsheet}
    (h : ss.people = none ∨
      ∃ sheet, ss.people = some sheet ∧
        (colIdx sheet.headers "Name" = none ∨
         colIdx sheet.headers "Category" = none ∨
         colIdx sheet.headers "Email" = none)) :
    applyContact data ss = ss := by
  unfold applyContact
  rcases h with hp | ⟨sheet, hp, hmiss⟩
  · rw [addOrUpdate_noSheet hp]
  · rw [addOrUpdate_missing hp hmiss]

theorem applyContact_update {data : Contact} {ss : Spreadsheet}
    {headers : List String} {rows : List (List String)}
    {nIdx cIdx eIdx j : Nat}
    (hp : ss.people = some ⟨headers, rows⟩)
    (hN : colIdx headers "Name" = some nIdx)
    (hC : colIdx headers "Category" = some cIdx)
    (hE : colIdx headers "Email" = some eIdx)
    (hj : findIdx0 (fun r => cell r eIdx == data.email) rows = some j) :
    applyContact data ss =
      { people := some ⟨headers, rows.set j (writeRow (rows.getD j [])
          (mkRowData headers data
            (currentAssignedTasks headers (rows.getD j []))))⟩ } := by
  unfold applyContact
  rw [addOrUpdate_valid hp hN hC hE, reconcile_fst_update hj]

theorem applyContact_insert {data : Contact} {ss : Spreadsheet}
    {headers : List String} {rows : List (List String)}
    {nIdx cIdx eIdx : Nat}
    (hp : ss.people = some ⟨headers, rows⟩)
    (hN : colIdx headers "Name" = some nIdx)
    (hC : colIdx headers "Category" = some cIdx)
    (hE : colIdx headers "Email" = some eIdx)
    (hn : findIdx0 (fun r => cell r eIdx == data.email) rows = none) :
    applyContact data ss =
      { people := some ⟨headers, rows ++ [mkRowData headers data ""]⟩ } := by
  unfold applyContact
  rw [addOrUpdate_valid hp hN hC hE, reconcile_fst_insert hn]

/-! ### Idempotence of the reconciler -/

theorem applyContact_idem (data : Contact) (ss : Spreadsheet) :
    applyContact data (applyContact data ss) = applyContact data ss := by
  cases hp : ss.people with
  | none =>
      have h1 : applyContact data ss = ss := applyContact_abort (Or.inl hp)
      rw [h1, h1]
  | some sheet =>
    cases hN : colIdx sheet.headers "Name" with
    | none =>
        have h1 : applyContact data ss = ss :=
          applyContact_abort (Or.inr ⟨sheet, hp, Or.inl hN⟩)
        rw [h1, h1]
    | some nIdx =>
      cases hC : colIdx sheet.headers "Category" with
      | none =>
          have h1 : applyContact data ss = ss :=
            applyContact_abort (Or.inr ⟨sheet, hp, Or.inr (Or.inl hC)⟩)
          rw [h1, h1]
      | some cIdx =>
        cases hE : colIdx sheet.headers "Email" with
        | none =>
            have h1 : applyContact data ss = ss :=
              applyContact_abort (Or.inr ⟨sheet, hp, Or.inr (Or.inr hE)⟩)
            rw [h1, h1]
        | some eIdx =>
          cases hj : findIdx0 (fun r => cell r eIdx == data.email)
              sheet.rows with
          | some j =>
              have hjlt : j < sheet.rows.length := findIdx0_eq_some_lt hj
              have h1 : applyContact data ss =
                  { people := some ⟨sheet.headers,
                    sheet.rows.set j (writeRow (sheet.rows.getD j [])
                      (mkRowData sheet.headers data
                        (currentAssignedTasks sheet.headers
                          (sheet.rows.getD j []))))⟩ } :=
                applyContact_update hp hN hC hE hj
              have hw : (cell (writeRow (sheet.rows.getD j [])
                    (mkRowData sheet.headers data
                      (currentAssignedTasks sheet.headers
                        (sheet.rows.getD j [])))) eIdx == data.email)
                    = true := by
                rw [cell_writeRow_mkRowData _ data _ (colIdx_lt hE),
                  mkRowData_email data _ hE]
                exact beq_self_eq_true data.email
              have hj2 : findIdx0 (fun r => cell r eIdx == data.email)
                  (sheet.rows.set j (writeRow (sheet.rows.getD j [])
                    (mkRowData sheet.headers data
                      (currentAssignedTasks sheet.headers
                        (sheet.rows.getD j []))))) = some j :=
                findIdx0_set hj hw
              have hp2 : (applyContact data ss).people =
                  some ⟨sheet.headers,
                    sheet.rows.set j (writeRow (sheet.rows.getD j [])
                      (mkRowData sheet.headers data
                        (currentAssignedTasks sheet.headers
                          (sheet.rows.getD j []))))⟩ := by
                rw [h1]
              have h2 := applyContact_update hp2 hN hC hE hj2
              rw [h2, h1]
              rw [getD_set_self sheet.rows _ [] hjlt,
                currentAssignedTasks_stable, writeRow_writeRow, List.set_set]
          | none =>
              have h1 : applyContact data ss =
                  { people := some ⟨sheet.headers,
                    sheet.rows ++ [mkRowData sheet.headers data ""]⟩ } :=
                applyContact_insert hp hN hC hE hj
              have hw : (cell (mkRowData sheet.headers data "") eIdx ==
                  data.email) = true := by
                show ((mkRowData sheet.headers data "").getD eIdx "" ==
                  data.email) = true
                rw [mkRowData_email data _ hE]
                exact beq_self_eq_true data.email
              have hj2 : findIdx0 (fun r => cell r eIdx == data.email)
                  (sheet.rows ++ [mkRowData sheet.headers data ""]) =
                  some sheet.rows.length :=
                findIdx0_append_singleton hj hw
              have hp2 : (applyContact data ss).people =
                  some ⟨sheet.headers,
                    sheet.rows ++ [mkRowData sheet.headers data ""]⟩ := by
                rw [h1]
              have h2 := applyContact_update hp2 hN hC hE hj2
              rw [h2, h1]
              rw [getD_append_length sheet.rows (mkRowData sheet.headers data "") [],
                currentAssignedTasks_fresh, writeRow_self, set_append_length]

/-! ### Preservation of the one-record-per-email invariant -/

theorem storeInvariant_mk {sheet : Sheet} (h : atMostOnePerEmail sheet) :
    storeInvariant { people := some sheet } := by
  intro s hs
  have hs' : some sheet = some s := hs
  injection hs' with he
  subst he
  exact h

theorem getD_map_cell (l : List (List String)) (eIdx : Nat) {j : Nat}
    (hj : j < l.length) :
    ((l.map fun r => cell r eIdx).getD j "") = cell (l.getD j []) eIdx := by
  rw [List.getD_eq_getElem _ _ (by rw [List.length_map]; exact hj),
    List.getD_eq_getElem _ _ hj]
  simp

/-- The row scan in terms of the spec's wording: the first row whose
Email cell equals the incoming email is the match. -/
theorem findIdx0_some_of_first {email : String} {rows : List (List String)}
    {eIdx j : Nat} (hjlt : j < rows.length)
    (hcell : cell (rows.getD j []) eIdx = email)
    (hfirst : ∀ i, i < j → cell (rows.getD i []) eIdx ≠ email) :
    findIdx0 (fun r => cell r eIdx == email) rows = some j := by
  rw [findIdx0_eq_some_iff _ ([] : List String)]
  refine ⟨hjlt, beq_iff_eq.mpr hcell, ?_⟩
  intro i hi
  exact beq_eq_false_iff_ne.mpr (hfirst i hi)

/-- The row scan in terms of the spec's wording: no row's Email cell
equals the incoming email, so there is no match. -/
theorem findIdx0_none_of_cells {email : String} {rows : List (List String)}
    {eIdx : Nat}
    (h : ∀ i, i < rows.length → cell (rows.getD i []) eIdx ≠ email) :
    findIdx0 (fun r => cell r eIdx == email) rows = none := by
  rw [findIdx0_eq_none_iff]
  intro x hx
  rcases List.mem_iff_getElem.mp hx with ⟨i, hilt, hig⟩
  rw [beq_eq_false_iff_ne]
  have := h i hilt
  rw [List.getD_eq_getElem rows [] hilt, hig] at this
  exact this

/-- The update branch rewrites the matched row but leaves the list of
Email cells of the whole sheet unchanged. -/
theorem emailCells_update (data : Contact) {headers : List String}
    {rows : List (List String)} {eIdx j : Nat}
    (hE : colIdx headers "Email" = some eIdx)
    (hj : findIdx0 (fun r => cell r eIdx == data.email) rows = some j) :
    ((rows.set j (writeRow (rows.getD j [])
      (mkRowData headers data
        (currentAssignedTasks headers (rows.getD j []))))).map
          fun r => cell r eIdx) =
      rows.map fun r => cell r eIdx := by
  have hjlt : j < rows.length := findIdx0_eq_some_lt hj
  have hfW : cell (writeRow (rows.getD j [])
      (mkRowData headers data
        (currentAssignedTasks headers (rows.getD j [])))) eIdx =
      data.email := by
    rw [cell_writeRow_mkRowData _ data _ (colIdx_lt hE),
      mkRowData_email data _ hE]
  have hold : cell (rows.getD j []) eIdx = data.email :=
    eq_of_beq (findIdx0_eq_some_getD [] hj)
  have hlen : j < (rows.map fun r => cell r eIdx).length := by
    rw [List.length_map]
    exact hjlt
  rw [List.map_set, hfW, ← hold, ← getD_map_cell rows eIdx hjlt,
    set_getD_self _ "" hlen]

theorem storeInvariant_preserved (data : Contact) (ss : Spreadsheet)
    (h : storeInvariant ss) : storeInvariant (applyContact data ss) := by
  cases hp : ss.people with
  | none =>
      rw [applyContact_abort (Or.inl hp)]
      exact h
  | some sheet =>
    cases hN : colIdx sheet.headers "Name" with
    | none =>
        rw [applyContact_abort (Or.inr ⟨sheet, hp, Or.inl hN⟩)]
        exact h
    | some nIdx =>
      cases hC : colIdx sheet.headers "Category" with
      | none =>
          rw [applyContact_abort (Or.inr ⟨sheet, hp, Or.inr (Or.inl hC)⟩)]
          exact h
      | some cIdx =>
        cases hE : colIdx sheet.headers "Email" with
        | none =>
            rw [applyContact_abort (Or.inr ⟨sheet, hp, Or.inr (Or.inr hE)⟩)]
            exact h
        | some eIdx =>
          have hsheet := h sheet hp
          cases hj : findIdx0 (fun r => cell r eIdx == data.email)
              sheet.rows with
          | some j =>
              rw [applyContact_update hp hN hC hE hj]
              apply storeInvariant_mk
              intro e' hE'
              have hE'' : colIdx sheet.headers "Email" = some e' := hE'
              rw [hE] at hE''
              injection hE'' with he
              subst he
              show ((sheet.rows.set j (writeRow (sheet.rows.getD j [])
                (mkRowData sheet.headers data
                  (currentAssignedTasks sheet.headers
                    (sheet.rows.getD j []))))).map
                      fun r => cell r eIdx).Nodup
              rw [emailCells_update data hE hj]
              exact hsheet eIdx hE
          | none =>
              rw [applyContact_insert hp hN hC hE hj]
              apply storeInvariant_mk
              intro e' hE'
              have hE'' : colIdx sheet.headers "Email" = some e' := hE'
              rw [hE] at hE''
              injection hE'' with he
              subst he
              show ((sheet.rows ++ [mkRowData sheet.headers data ""]).map
                fun r => cell r eIdx).Nodup
              rw [List.map_append, List.nodup_append]
              refine ⟨hsheet eIdx hE, List.nodup_singleton _, ?_⟩
              intro a ha hb
              have hM : cell (mkRowData sheet.headers data "") eIdx =
                  data.email := mkRowData_email data "" hE
              have hb' : a = data.email := by
                rw [← hM]
                simpa using hb
              rcases List.mem_map.mp ha with ⟨r, hr, hfr⟩
              have hfalse := (findIdx0_eq_none_iff _ _).mp hj r hr
              rw [hb'] at hfr
              rw [← hfr] at hfalse
              simp at hfalse

/-! ### Claim theorems -/

/-- Claim C2: for every roster containing a record whose Email equals the
incoming contact's email, the merge leaves that record's Assigned Tasks
value exactly unchanged: the written row carries the value read from the
current record. -/
theorem C2_assignedTasks_preserved {data : Contact} {ss : Spreadsheet}
    {headers : List String} {rows : List (List String)}
    {nIdx cIdx eIdx aIdx j : Nat}
    (hp : ss.people = some ⟨headers, rows⟩)
    (hN : colIdx headers "Name" = some nIdx)
    (hC : colIdx headers "Category" = some cIdx)
    (hE : colIdx headers "Email" = some eIdx)
    (hA : colIdx headers "Assigned Tasks" = some aIdx)
    (hj : findIdx0 (fun r => cell r eIdx == data.email) rows = some j) :
    ∃ rows', (applyContact data ss).people = some ⟨headers, rows'⟩ ∧
      cell (rows'.getD j []) aIdx = cell (rows.getD j []) aIdx := by
  have hjlt : j < rows.length := findIdx0_eq_some_lt hj
  refine ⟨rows.set j (writeRow (rows.getD j [])
      (mkRowData headers data (currentAssignedTasks headers (rows.getD j [])))),
    by rw [applyContact_update hp hN hC hE hj], ?_⟩
  rw [getD_set_self rows _ [] hjlt,
    cell_writeRow_mkRowData _ data _ (colIdx_lt hA),
    mkRowData_assigned data _ hA]
  unfold currentAssignedTasks
  rw [hA]

/-- Claim C2 witness: the spec's end-to-end scenario.  Reconciling
Ana Lee into the roster holding Ana's record keeps the Assigned Tasks
cell ("Signage", column 6) exactly unchanged. -/
theorem C2_witness :
    ∃ rows', (applyContact anaLee anaStore).people = some ⟨fullHeaders, rows'⟩ ∧
      cell (rows'.getD 0 []) 6 = cell (anaSheet.rows.getD 0 []) 6 :=
  C2_assignedTasks_preserved (by rfl) (by rfl) (by rfl) (by rfl) (by rfl)
    (by rfl)

/-- Claim C1 counterexample: the claim that every unknown schema column
is copied forward unchanged is false.  In a roster whose schema has an
extra column "Notes" (column 3) holding "important note", updating the
matched record stores a different value there (the cell is blanked). -/
theorem C1_cex :
    colIdx notesSheet.headers "Notes" = some 3 ∧
    cell ((peopleRows notesStore).getD 0 []) 3 = "important note" ∧
    ¬ cell ((peopleRows (applyContact anaLee notesStore)).getD 0 []) 3 =
        cell ((peopleRows notesStore).getD 0 []) 3 := by
  decide

/-- Claim C1 (amended): when an existing record with the incoming email
is found, every schema column the operation does not know how to
populate, other than "Assigned Tasks", is overwritten with the empty
string; only "Assigned Tasks" is copied forward. -/
theorem C1_unknownColumns_blanked {data : Contact} {ss : Spreadsheet}
    {headers : List String} {rows : List (List String)}
    {nIdx cIdx eIdx j k : Nat}
    (hp : ss.people = some ⟨headers, rows⟩)
    (hN : colIdx headers "Name" = some nIdx)
    (hC : colIdx headers "Category" = some cIdx)
    (hE : colIdx headers "Email" = some eIdx)
    (hj : findIdx0 (fun r => cell r eIdx == data.email) rows = some j)
    (hk : k < headers.length)
    (h1 : colIdx headers "Assigned Tasks" ≠ some k)
    (h2 : colIdx headers "Name" ≠ some k)
    (h3 : colIdx headers "Category" ≠ some k)
    (h4 : colIdx headers "Role/Position" ≠ some k)
    (h5 : colIdx headers "Status" ≠ some k)
    (h6 : colIdx headers "Email" ≠ some k)
    (h7 : colIdx headers "Phone" ≠ some k) :
    ∃ rows', (applyContact data ss).people = some ⟨headers, rows'⟩ ∧
      cell (rows'.getD j []) k = "" := by
  have hjlt : j < rows.length := findIdx0_eq_some_lt hj
  refine ⟨rows.set j (writeRow (rows.getD j [])
      (mkRowData headers data (currentAssignedTasks headers (rows.getD j [])))),
    by rw [applyContact_update hp hN hC hE hj], ?_⟩
  rw [getD_set_self rows _ [] hjlt, cell_writeRow_mkRowData _ data _ hk,
    mkRowData_unknown data _ hk h1 h2 h3 h4 h5 h6 h7]

/-- Claim C1 (amended) witness: in the "Notes" roster the unknown column
3 of the matched row is blanked by the update. -/
theorem C1_witness :
    ∃ rows', (applyContact anaLee notesStore).people =
        some ⟨notesSheet.headers, rows'⟩ ∧
      cell (rows'.getD 0 []) 3 = "" :=
  C1_unknownColumns_blanked (by rfl) (by rfl) (by rfl) (by rfl) (by rfl)
    (by decide) (by decide) (by decide) (by decide) (by decide) (by decide)
    (by decide) (by decide)

/-- Claim C5: when the People sheet is missing, or its header lacks any
of the required columns Name, Category, Email, the operation leaves the
store exactly unchanged and logs the configuration error; it is a total
function, returning normally rather than throwing. -/
theorem C5_config_guard {data : Contact} {ss : Spreadsheet}
    (h : ss.people = none ∨ ∃ sheet, ss.people = some sheet ∧
      (colIdx sheet.headers "Name" = none ∨
       colIdx sheet.headers "Category" = none ∨
       colIdx sheet.headers "Email" = none)) :
    applyContact data ss = ss ∧
    (applyLog data ss = ["People sheet not found"] ∨
     applyLog data ss = ["Required columns not found in People sheet"]) := by
  rcases h with hp | ⟨sheet, hp, hmiss⟩
  · refine ⟨applyContact_abort (Or.inl hp), Or.inl ?_⟩
    unfold applyLog
    rw [addOrUpdate_noSheet hp]
  · refine ⟨applyContact_abort (Or.inr ⟨sheet, hp, hmiss⟩), Or.inr ?_⟩
    unfold applyLog
    rw [addOrUpdate_missing hp hmiss]

/-- Claim C5 witness: a roster without an "Email" column is left exactly
unchanged and the configuration error is the only log output. -/
theorem C5_witness :
    applyContact richContact noEmailStore = noEmailStore ∧
    (applyLog richContact noEmailStore = ["People sheet not found"] ∨
     applyLog richContact noEmailStore =
       ["Required columns not found in People sheet"]) :=
  C5_config_guard (Or.inr ⟨noEmailSheet, by rfl, Or.inr (Or.inr (by rfl))⟩)

/-- Claim C9: when several existing rows carry the incoming email, only
the first such row is written; the sheet keeps its number of rows and
every other row, including the later duplicates, is exactly unchanged. -/
theorem C9_first_match_only {data : Contact} {ss : Spreadsheet}
    {headers : List String} {rows : List (List String)}
    {nIdx cIdx eIdx j : Nat}
    (hp : ss.people = some ⟨headers, rows⟩)
    (hN : colIdx headers "Name" = some nIdx)
    (hC : colIdx headers "Category" = some cIdx)
    (hE : colIdx headers "Email" = some eIdx)
    (hjlt : j < rows.length)
    (hcell : cell (rows.getD j []) eIdx = data.email)
    (hfirst : ∀ i, i < j → cell (rows.getD i []) eIdx ≠ data.email) :
    ∃ w, applyContact data ss = { people := some ⟨headers, rows.set j w⟩ } ∧
      (rows.set j w).length = rows.length ∧
      ∀ i, i ≠ j → (rows.set j w).getD i [] = rows.getD i [] := by
  have hj : findIdx0 (fun r => cell r eIdx == data.email) rows = some j :=
    findIdx0_some_of_first hjlt hcell hfirst
  refine ⟨writeRow (rows.getD j []) (mkRowData headers data
      (currentAssignedTasks headers (rows.getD j []))),
    applyContact_update hp hN hC hE hj, by rw [List.length_set], ?_⟩
  intro i hi
  exact getD_set_ne rows _ [] (Ne.symm hi)

/-- Claim C9 witness: a roster holding two rows with the same email:
the call updates row 0 only and row 1 is exactly unchanged. -/
theorem C9_witness :
    ∃ w, applyContact dupContact dupStore =
        { people := some ⟨dupSheet.headers, dupSheet.rows.set 0 w⟩ } ∧
      (dupSheet.rows.set 0 w).length = dupSheet.rows.length ∧
      ∀ i, i ≠ 0 → (dupSheet.rows.set 0 w).getD i [] =
        dupSheet.rows.getD i [] :=
  C9_first_match_only (by rfl) (by rfl) (by rfl) (by rfl) (by decide)
    (by decide) (fun i hi => absurd hi (Nat.not_lt_zero i))

/-- Claim C3 counterexample: an empty-email call does not always take
the insert branch.  Starting from the empty roster, the first
empty-email call appends one blank-keyed row; the second call's row scan
MATCHES that row (index 0) and updates it, so two calls leave one row,
not two duplicate blank-keyed rows. -/
theorem C3_cex :
    peopleRows (applyContact blankContact emptyStore) =
      [["B", "Volunteer", ""]] ∧
    findIdx0 (fun r => cell r 2 == blankContact.email)
      (peopleRows (applyContact blankContact emptyStore)) = some 0 ∧
    peopleRows (applyContact blankContact
      (applyContact blankContact emptyStore)) = [["B", "Volunteer", ""]] ∧
    ¬ (peopleRows (applyContact blankContact
        (applyContact blankContact emptyStore))).length = 2 := by
  decide

/-- Claim C3 (amended): an empty-email contact is matched against the
Email cells like any other: it takes the insert branch exactly when no
existing row has an empty Email cell, appending one blank-keyed row; a
repeated call then matches that row and leaves the roster unchanged
instead of appending a duplicate. -/
theorem C3_empty_email {data : Contact} {ss : Spreadsheet}
    {headers : List String} {rows : List (List String)}
    {nIdx cIdx eIdx : Nat}
    (hp : ss.people = some ⟨headers, rows⟩)
    (hN : colIdx headers "Name" = some nIdx)
    (hC : colIdx headers "Category" = some cIdx)
    (hE : colIdx headers "Email" = some eIdx)
    (hemail : data.email = "")
    (hnoblank : ∀ i, i < rows.length → cell (rows.getD i []) eIdx ≠ "") :
    applyContact data ss =
      { people := some ⟨headers, rows ++ [mkRowData headers data ""]⟩ } ∧
    applyContact data (applyContact data ss) = applyContact data ss := by
  have hn : findIdx0 (fun r => cell r eIdx == data.email) rows = none := by
    apply findIdx0_none_of_cells
    intro i hi
    rw [hemail]
    exact hnoblank i hi
  exact ⟨applyContact_insert hp hN hC hE hn, applyContact_idem data ss⟩

/-- Claim C3 (amended) witness: the empty roster has no blank-keyed row,
so the first empty-email call appends one and the second call converges
(no duplicate). -/
theorem C3_witness :
    applyContact blankContact emptyStore =
      { people := some ⟨emptySheet.headers,
        emptySheet.rows ++ [mkRowData emptySheet.headers blankContact ""]⟩ } ∧
    applyContact blankContact (applyContact blankContact emptyStore) =
      applyContact blankContact emptyStore :=
  C3_empty_email (by rfl) (by rfl) (by rfl) (by rfl) (by rfl)
    (fun i hi => absurd hi (Nat.not_lt_zero i))

/-- Claim C4: the match is selected by scanning the rows in order and
taking the first one whose Email cell is exactly (case-sensitively)
string-equal to the incoming email; with no exact match the insert path
is taken; and two contacts whose emails differ only in letter case
("a@x.com" vs "A@X.com") yield two distinct records. -/
theorem C4_matching :
    (∀ (data : Contact) (ss : Spreadsheet) (headers : List String)
        (rows : List (List String)) (nIdx cIdx eIdx j : Nat),
      ss.people = some ⟨headers, rows⟩ →
      colIdx headers "Name" = some nIdx →
      colIdx headers "Category" = some cIdx →
      colIdx headers "Email" = some eIdx →
      j < rows.length →
      cell (rows.getD j []) eIdx = data.email →
      (∀ i, i < j → cell (rows.getD i []) eIdx ≠ data.email) →
      applyContact data ss = { people := some ⟨headers,
        rows.set j (writeRow (rows.getD j []) (mkRowData headers data
          (currentAssignedTasks headers (rows.getD j []))))⟩ }) ∧
    (∀ (data : Contact) (ss : Spreadsheet) (headers : List String)
        (rows : List (List String)) (nIdx cIdx eIdx : Nat),
      ss.people = some ⟨headers, rows⟩ →
      colIdx headers "Name" = some nIdx →
      colIdx headers "Category" = some cIdx →
      colIdx headers "Email" = some eIdx →
      (∀ i, i < rows.length → cell (rows.getD i []) eIdx ≠ data.email) →
      applyContact data ss = { people := some ⟨headers,
        rows ++ [mkRowData headers data ""]⟩ }) ∧
    peopleRows (applyContact upperCaseContact
        (applyContact lowerCaseContact emptyStore)) =
      [["Lo", "V", "a@x.com"], ["Up", "V", "A@X.com"]] := by
  refine ⟨?_, ?_, by decide⟩
  · intro data ss headers rows nIdx cIdx eIdx j hp hN hC hE hjlt hcell hfirst
    exact applyContact_update hp hN hC hE
      (findIdx0_some_of_first hjlt hcell hfirst)
  · intro data ss headers rows nIdx cIdx eIdx hp hN hC hE hnone
    exact applyContact_insert hp hN hC hE (findIdx0_none_of_cells hnone)

/-- Claim C4 witness: the first-match update path applied at the
concrete Ana roster (row 0 is the first and only exact match). -/
theorem C4_witness :
    applyContact anaLee anaStore = { people := some ⟨fullHeaders,
      anaSheet.rows.set 0 (writeRow (anaSheet.rows.getD 0 [])
        (mkRowData fullHeaders anaLee
          (currentAssignedTasks fullHeaders (anaSheet.rows.getD 0 []))))⟩ } :=
  C4_matching.1 anaLee anaStore fullHeaders anaSheet.rows 0 1 4 0 (by rfl)
    (by rfl) (by rfl) (by rfl) (by decide) (by decide)
    (fun i hi => absurd hi (Nat.not_lt_zero i))

/-- Claim C6: with no matching email the operation appends exactly one
new row after the last existing row; in it every known field (resolved
by header name) carries the incoming contact's value, the Assigned Tasks
column carries the empty string, and every other schema column carries
the empty string. -/
theorem C6_insert_defaults {data : Contact} {ss : Spreadsheet}
    {headers : List String} {rows : List (List String)}
    {nIdx cIdx eIdx : Nat}
    (hp : ss.people = some ⟨headers, rows⟩)
    (hN : colIdx headers "Name" = some nIdx)
    (hC : colIdx headers "Category" = some cIdx)
    (hE : colIdx headers "Email" = some eIdx)
    (hnone : ∀ i, i < rows.length → cell (rows.getD i []) eIdx ≠ data.email) :
    ∃ newRow,
      applyContact data ss = { people := some ⟨headers, rows ++ [newRow]⟩ } ∧
      newRow.length = headers.length ∧
      (∀ k, colIdx headers "Name" = some k → cell newRow k = data.name) ∧
      (∀ k, colIdx headers "Category" = some k →
        cell newRow k = data.category) ∧
      (∀ k, colIdx headers "Role/Position" = some k →
        cell newRow k = data.role) ∧
      (∀ k, colIdx headers "Status" = some k → cell newRow k = data.status) ∧
      (∀ k, colIdx headers "Email" = some k → cell newRow k = data.email) ∧
      (∀ k, colIdx headers "Phone" = some k → cell newRow k = data.phone) ∧
      (∀ k, colIdx headers "Assigned Tasks" = some k → cell newRow k = "") ∧
      (∀ k, k < headers.length →
        colIdx headers "Assigned Tasks" ≠ some k →
        colIdx headers "Name" ≠ some k →
        colIdx headers "Category" ≠ some k →
        colIdx headers "Role/Position" ≠ some k →
        colIdx headers "Status" ≠ some k →
        colIdx headers "Email" ≠ some k →
        colIdx headers "Phone" ≠ some k →
        cell newRow k = "") := by
  refine ⟨mkRowData headers data "",
    applyContact_insert hp hN hC hE (findIdx0_none_of_cells hnone),
    length_mkRowData headers data "",
    fun k hk => mkRowData_name data "" hk,
    fun k hk => mkRowData_category data "" hk,
    fun k hk => mkRowData_role data "" hk,
    fun k hk => mkRowData_status data "" hk,
    fun k hk => mkRowData_email data "" hk,
    fun k hk => mkRowData_phone data "" hk,
    fun k hk => mkRowData_assigned data "" hk,
    fun k hk h1 h2 h3 h4 h5 h6 h7 =>
      mkRowData_unknown data "" hk h1 h2 h3 h4 h5 h6 h7⟩

/-- Claim C6 witness: inserting a brand-new contact into the empty
roster appends one fully-populated row with defaults. -/
theorem C6_witness :
    ∃ newRow,
      applyContact richContact emptyStore =
        { people := some ⟨emptySheet.headers, emptySheet.rows ++ [newRow]⟩ } ∧
      newRow.length = emptySheet.headers.length ∧
      (∀ k, colIdx emptySheet.headers "Name" = some k →
        cell newRow k = richContact.name) ∧
      (∀ k, colIdx emptySheet.headers "Category" = some k →
        cell newRow k = richContact.category) ∧
      (∀ k, colIdx emptySheet.headers "Role/Position" = some k →
        cell newRow k = richContact.role) ∧
      (∀ k, colIdx emptySheet.headers "Status" = some k →
        cell newRow k = richContact.status) ∧
      (∀ k, colIdx emptySheet.headers "Email" = some k →
        cell newRow k = richContact.email) ∧
      (∀ k, colIdx emptySheet.headers "Phone" = some k →
        cell newRow k = richContact.phone) ∧
      (∀ k, colIdx emptySheet.headers "Assigned Tasks" = some k →
        cell newRow k = "") ∧
      (∀ k, k < emptySheet.headers.length →
        colIdx emptySheet.headers "Assigned Tasks" ≠ some k →
        colIdx emptySheet.headers "Name" ≠ some k →
        colIdx emptySheet.headers "Category" ≠ some k →
        colIdx emptySheet.headers "Role/Position" ≠ some k →
        colIdx emptySheet.headers "Status" ≠ some k →
        colIdx emptySheet.headers "Email" ≠ some k →
        colIdx emptySheet.headers "Phone" ≠ some k →
        cell newRow k = "") :=
  C6_insert_defaults (by rfl) (by rfl) (by rfl) (by rfl)
    (fun i hi => absurd hi (Nat.not_lt_zero i))

/-- Claim C7 counterexample: with a non-empty email, on a roster already
holding two records for that email, applying the same contact twice is
idempotent but does NOT leave exactly one record for the email: two
records remain. -/
theorem C7_cex :
    dupContact.email ≠ "" ∧
    applyContact dupContact (applyContact dupContact dupStore) =
      applyContact dupContact dupStore ∧
    ¬ recordCount (peopleRows (applyContact dupContact dupStore)) 2
        dupContact.email = 1 ∧
    recordCount (peopleRows (applyContact dupContact dupStore)) 2
      dupContact.email = 2 := by
  decide

/-- Claim C7 (amended): applying the same contact twice leaves the
roster exactly as a single application does (for every contact and every
store); and when the sheet is valid and the roster holds at most one
record with the contact's email beforehand, exactly one record with that
email remains afterwards. -/
theorem C7_idempotent {data : Contact} {ss : Spreadsheet}
    {headers : List String} {rows : List (List String)}
    {nIdx cIdx eIdx : Nat}
    (hp : ss.people = some ⟨headers, rows⟩)
    (hN : colIdx headers "Name" = some nIdx)
    (hC : colIdx headers "Category" = some cIdx)
    (hE : colIdx headers "Email" = some eIdx)
    (hone : recordCount rows eIdx data.email ≤ 1) :
    applyContact data (applyContact data ss) = applyContact data ss ∧
    ∃ rows', (applyContact data ss).people = some ⟨headers, rows'⟩ ∧
      recordCount rows' eIdx data.email = 1 := by
  refine ⟨applyContact_idem data ss, ?_⟩
  cases hj : findIdx0 (fun r => cell r eIdx == data.email) rows with
  | some j =>
      have hjlt : j < rows.length := findIdx0_eq_some_lt hj
      refine ⟨rows.set j (writeRow (rows.getD j [])
          (mkRowData headers data
            (currentAssignedTasks headers (rows.getD j [])))),
        by rw [applyContact_update hp hN hC hE hj], ?_⟩
      unfold recordCount
      rw [emailCells_update data hE hj]
      have hmem : data.email ∈ rows.map (fun r => cell r eIdx) := by
        refine List.mem_map.mpr ⟨rows.getD j [], ?_,
          eq_of_beq (findIdx0_eq_some_getD [] hj)⟩
        rw [List.getD_eq_getElem rows [] hjlt]
        exact List.getElem_mem hjlt
      have hpos : 1 ≤ (rows.map fun r => cell r eIdx).count data.email :=
        Nat.one_le_iff_ne_zero.mpr
          (fun h0 => (List.count_eq_zero.mp h0) hmem)
      have hle : (rows.map fun r => cell r eIdx).count data.email ≤ 1 := hone
      omega
  | none =>
      refine ⟨rows ++ [mkRowData headers data ""],
        by rw [applyContact_insert hp hN hC hE hj], ?_⟩
      unfold recordCount
      rw [List.map_append, List.count_append]
      have h0 : (rows.map fun r => cell r eIdx).count data.email = 0 := by
        rw [List.count_eq_zero]
        intro hmem
        rcases List.mem_map.mp hmem with ⟨r, hr, hfr⟩
        have hfalse := (findIdx0_eq_none_iff _ _).mp hj r hr
        rw [hfr] at hfalse
        simp at hfalse
      have hM : cell (mkRowData headers data "") eIdx = data.email :=
        mkRowData_email data "" hE
      rw [h0]
      show 0 + ([cell (mkRowData headers data "") eIdx].count data.email) = 1
      rw [hM]
      simp

/-- Claim C7 (amended) witness: Ana's roster holds one record for
ana@x.com; applying Ana Lee twice equals applying once, leaving exactly
one record with that email. -/
theorem C7_witness :
    applyContact anaLee (applyContact anaLee anaStore) =
      applyContact anaLee anaStore ∧
    ∃ rows', (applyContact anaLee anaStore).people =
        some ⟨fullHeaders, rows'⟩ ∧
      recordCount rows' 4 anaLee.email = 1 :=
  C7_idempotent (by rfl) (by rfl) (by rfl) (by rfl) (by decide)

/-- Claim C8 counterexample: the at-most-one-record-per-email property
does not hold after every call: starting from a roster that already
holds two rows with the same email, the call leaves both in place. -/
theorem C8_cex : ¬ storeInvariant (applyContact dupContact dupStore) := by
  intro h
  have h2 := h ⟨["Name", "Category", "Email"],
    [["Z", "V", "a@x.com"], ["B", "V", "a@x.com"]]⟩ (by decide)
  have h3 := h2 2 (by decide)
  exact absurd h3 (by decide)

/-- Claim C8 (amended): the at-most-one-record-per-email invariant is
preserved by every call: if it holds of the store before a
reconciliation, it holds after. -/
theorem C8_invariant_preserved (data : Contact) (ss : Spreadsheet)
    (h : storeInvariant ss) : storeInvariant (applyContact data ss) :=
  storeInvariant_preserved data ss h

/-- Claim C8 (amended) witness: the empty roster satisfies the invariant
and still does after inserting a contact with duplicate-free email. -/
theorem C8_witness : storeInvariant (applyContact dupContact emptyStore) :=
  C8_invariant_preserved dupContact emptyStore
    (storeInvariant_mk (fun _ _ => List.nodup_nil))

/-- Claim C10: absence of the optional columns Role/Position, Status,
Phone and Assigned Tasks does not abort the call: the full result (store
and log) does not depend on the values destined for the missing columns,
and the single-row write (update of the first match, or append) still
happens. -/
theorem C10_optional_columns {c c' : Contact} {ss : Spreadsheet}
    {headers : List String} {rows : List (List String)}
    {nIdx cIdx eIdx : Nat}
    (hp : ss.people = some ⟨headers, rows⟩)
    (hN : colIdx headers "Name" = some nIdx)
    (hC : colIdx headers "Category" = some cIdx)
    (hE : colIdx headers "Email" = some eIdx)
    (hR : colIdx headers "Role/Position" = none)
    (hS : colIdx headers "Status" = none)
    (hP : colIdx headers "Phone" = none)
    (hA : colIdx headers "Assigned Tasks" = none)
    (hname : c'.name = c.name)
    (hcat : c'.category = c.category)
    (hem : c'.email = c.email) :
    addOrUpdatePersonInPeopleSheet c ss =
      addOrUpdatePersonInPeopleSheet c' ss ∧
    ((∃ j w, findIdx0 (fun r => cell r eIdx == c.email) rows = some j ∧
        applyContact c ss = { people := some ⟨headers, rows.set j w⟩ }) ∨
      applyContact c ss =
        { people := some ⟨headers, rows ++ [mkRowData headers c ""]⟩ }) := by
  have hmk1 : ∀ a, mkRowData headers c' a = mkRowData headers c a := by
    intro a
    unfold mkRowData
    apply List.map_eq_map_iff.mpr
    intro x hx
    simp [hA, hR, hS, hP, hname, hcat, hem]
  have hrec : reconcile c ⟨headers, rows⟩ eIdx =
      reconcile c' ⟨headers, rows⟩ eIdx := by
    unfold reconcile
    simp only [hem, hname, hmk1]
  constructor
  · rw [@addOrUpdate_valid c ss ⟨headers, rows⟩ nIdx cIdx eIdx hp hN hC hE,
      @addOrUpdate_valid c' ss ⟨headers, rows⟩ nIdx cIdx eIdx hp hN hC hE,
      hrec]
  · cases hj : findIdx0 (fun r => cell r eIdx == c.email) rows with
    | some j =>
        exact Or.inl ⟨j, writeRow (rows.getD j [])
          (mkRowData headers c (currentAssignedTasks headers (rows.getD j []))),
          rfl, applyContact_update hp hN hC hE hj⟩
    | none => exact Or.inr (applyContact_insert hp hN hC hE hj)

/-- Claim C10 witness: on a roster with only the required columns, two
contacts that agree on Name, Category, Email but differ in Role, Status
and Phone produce the same call result, and the append still happens. -/
theorem C10_witness :
    addOrUpdatePersonInPeopleSheet richContact emptyStore =
      addOrUpdatePersonInPeopleSheet richContactAlt emptyStore ∧
    ((∃ j w, findIdx0 (fun r => cell r 2 == richContact.email)
        emptySheet.rows = some j ∧
        applyContact richContact emptyStore =
          { people := some ⟨emptySheet.headers, emptySheet.rows.set j w⟩ }) ∨
      applyContact richContact emptyStore =
        { people := some ⟨emptySheet.headers, emptySheet.rows ++
          [mkRowData emptySheet.headers richContact ""]⟩ }) :=
  C10_optional_columns (by rfl) (by rfl) (by rfl) (by rfl) (by rfl) (by rfl)
    (by rfl) (by rfl) (by rfl) (by rfl) (by rfl)

end EventPlanner

